import Mathlib

/-!
# Verification of the conversational scheduling engine

Shallow embedding, in Lean 4, of the chatbot scheduling service of this
repository (`ai_service.py`, with the data model of `models.py`).

Modelling conventions, used throughout:

* Messages are lists of characters (`Msg`), mirroring Python strings; the
  substring test `sub in s` becomes `contem`, `str.lower()` becomes `lowerL`
  and `str.strip()` becomes `trimL`.
* Dates are absolute day numbers: the number of days elapsed since
  1900-01-01, which was a Monday.  Hence `d % 7` is exactly Python's
  `date.weekday()` (Monday = 0) for every Gregorian date from 1900 on, and
  the SQL date strings `%Y-%m-%d` stored by the source correspond
  bijectively to day numbers, so string equality in queries is day-number
  equality here.
* Times of day are minutes since midnight (`0 ≤ t < 1440` for real times);
  the stored `%H:%M` strings correspond bijectively to minutes, so string
  equality is minute equality.  The pair rendered by `%d/%m` (the first five
  characters of `data_formatada`) is modelled as a `Nat × Nat` pair
  (day-of-month, month); both sides are printed zero-padded to two digits in
  the source, so string equality of those five characters is pair equality.
* POSIX timestamps of slot datetimes, used only as sort keys, are modelled
  monotonically as `day * 1440 + minutes`.
* Database tables are Lean lists in row order; `create` appends a row with
  the next id.  SQL `COUNT`-based existence checks become `List.any`.
* The remote LLM call is an oracle `Env.ai`; `none` models the call raising
  an exception, `some txt` models a reply with text `txt`.
-/

/-! ## Characters and strings -/

/-- A Python string, as its list of characters. -/
abbrev Msg := List Char

/-- `str.lower()`.  ASCII letters and the accented letters appearing in the
keyword lists of the source are mapped; other characters are unchanged. -/
def lowerChar (c : Char) : Char :=
  if c = 'Á' then 'á' else if c = 'À' then 'à' else if c = 'Ã' then 'ã'
  else if c = 'Â' then 'â' else if c = 'É' then 'é' else if c = 'Ê' then 'ê'
  else if c = 'Í' then 'í' else if c = 'Ó' then 'ó' else if c = 'Õ' then 'õ'
  else if c = 'Ô' then 'ô' else if c = 'Ú' then 'ú' else if c = 'Ç' then 'ç'
  else c.toLower

/-- `str.lower()` over a whole string. -/
def lowerL (s : Msg) : Msg := s.map lowerChar

/-- Python whitespace for `str.strip()`. -/
def ehEspaco (c : Char) : Bool :=
  c = ' ' || c = '\t' || c = '\n' || c = '\r' || c = '\x0b' || c = '\x0c'

/-- `str.strip()`. -/
def trimL (s : Msg) : Msg :=
  ((s.dropWhile ehEspaco).reverse.dropWhile ehEspaco).reverse

/-- Python's `sub in s` substring test. -/
def contem (sub s : Msg) : Bool :=
  s.tails.any (fun t => sub.isPrefixOf t)

/-- Numeric value of a decimal digit character. -/
def digitVal (c : Char) : Nat := c.toNat - '0'.toNat

/-- Value of a string of decimal digits. -/
def natOfDigits (s : Msg) : Nat := s.foldl (fun n c => 10 * n + digitVal c) 0

/-- `int(s)` for a stripped string: optional sign followed by digits.
(The underscore digit separators Python also tolerates are not modelled.) -/
def parseInt (s : Msg) : Option Int :=
  match s with
  | '-' :: resto =>
      if resto ≠ [] && resto.all Char.isDigit then some (-(natOfDigits resto : Int)) else none
  | '+' :: resto =>
      if resto ≠ [] && resto.all Char.isDigit then some (natOfDigits resto : Int) else none
  | _ => if s ≠ [] && s.all Char.isDigit then some (natOfDigits s : Int) else none

/-! ## Gregorian calendar

Day numbers count days since 1900-01-01 (day 0), which was a Monday. -/

/-- Leap year test. -/
def ehBissexto (y : Nat) : Bool := (y % 4 = 0 && y % 100 ≠ 0) || y % 400 = 0

/-- Days in month `m` (1–12) of year `y`. -/
def diasNoMes (y m : Nat) : Nat :=
  if m = 2 then (if ehBissexto y then 29 else 28)
  else if m = 4 || m = 6 || m = 9 || m = 11 then 30
  else 31

/-- Days in year `y`. -/
def diasNoAno (y : Nat) : Nat := if ehBissexto y then 366 else 365

/-- Day number of the Gregorian date `(y, m, d)`, for `y ≥ 1900` and a valid
date. -/
def dayNumber (y m d : Nat) : Nat :=
  ((List.range (y - 1900)).map (fun i => diasNoAno (1900 + i))).sum
    + ((List.range (m - 1)).map (fun i => diasNoMes y (i + 1))).sum
    + (d - 1)

/-- Helper for `fromDayNumber`: consume whole years. -/
def fdnAno : Nat → Nat → Nat → Nat × Nat
  | 0, y, n => (y, n)
  | fuel + 1, y, n =>
      if diasNoAno y ≤ n then fdnAno fuel (y + 1) (n - diasNoAno y) else (y, n)

/-- Helper for `fromDayNumber`: consume whole months. -/
def fdnMes : Nat → Nat → Nat → Nat → Nat × Nat
  | 0, _, m, n => (m, n)
  | fuel + 1, y, m, n =>
      if diasNoMes y m ≤ n then fdnMes fuel y (m + 1) (n - diasNoMes y m) else (m, n)

/-- Gregorian date `(y, m, d)` of a day number. -/
def fromDayNumber (n : Nat) : Nat × Nat × Nat :=
  let (y, r) := fdnAno (n + 1) 1900 n
  let (m, d) := fdnMes 12 y 1 r
  (y, m, d + 1)

/-- The `(day-of-month, month)` pair rendered by `strftime('%d/%m...')` for a
day number — the first five characters of the formatted date. -/
def dataFmtDMde (n : Nat) : Nat × Nat :=
  let (_, m, d) := fromDayNumber n
  (d, m)

/-! ## Data model (`models.py`) -/

/-- A row of the `medicos` table. -/
structure Medico where
  id : Nat
  nome : String := ""
  crm : String := ""
  especialidadeId : Nat := 0
  ativo : Bool := true
  /-- `data_abertura_agenda` as a day number; `none` for NULL (and for the
  unparsable strings the source also treats as "always open"). -/
  dataAberturaAgenda : Option Nat := none
deriving DecidableEq, Repr

/-- A row of the `horarios_disponiveis` table (weekly availability). -/
structure HorarioDisponivel where
  medicoId : Nat
  localId : Nat
  diaSemana : Nat
  /-- `hora_inicio`, minutes of day. -/
  horaInicio : Nat
  /-- `hora_fim`, minutes of day. -/
  horaFim : Nat
  /-- `duracao_consulta`; `none` for NULL or an unparsable value. -/
  duracaoConsulta : Option Nat := none
  ativo : Bool := true
deriving DecidableEq, Repr

/-- A row of the `especialidades` table. -/
structure Especialidade where
  id : Nat
  nome : String := ""
  requerAnexo : Bool := false
  ativo : Bool := true
deriving DecidableEq, Repr

/-- A row of the `locais` table.  Empty strings model NULL (both are falsy
where the source tests them). -/
structure LocalAtendimento where
  id : Nat
  nome : String := ""
  cidade : String := ""
  ativo : Bool := true
deriving DecidableEq, Repr

/-- A row of the `pacientes` table (the fields the engine reads). -/
structure Paciente where
  id : Nat
  cpf : Msg := []
  nome : String := ""
deriving DecidableEq, Repr

/-- A row of the `agendamentos` table.  Reference and date/time columns are
`Option` because the source sometimes inserts NULLs (e.g. the upload-link
branch reads draft keys that were never set); SQL `col = v` is false on
NULL, matching `Option` equality against `some v`. -/
structure Agendamento where
  id : Nat
  pacienteId : Option Nat := none
  medicoId : Option Nat := none
  especialidadeId : Option Nat := none
  localId : Option Nat := none
  /-- `data`, as a day number. -/
  dia : Option Nat := none
  /-- `hora`, minutes of day. -/
  horaMin : Option Nat := none
  observacoes : String := ""
  status : String := "agendado"
  anexoNome : String := ""
  anexoPath : String := ""
  motivoCancelamento : String := ""
deriving DecidableEq, Repr

/-- The state-scoped draft data (`dados_temporarios` JSON dictionary).
A key absent from the dictionary is `none` (`false` / `[]` for the fields
only ever tested for truthiness).  The empty dictionary is `{}`. -/
structure Draft where
  cpf : Option Msg := none
  pacienteId : Option Nat := none
  acaoDesejada : Option String := none
  mensagemInicial : Option Msg := none
  etapaCadastro : Option String := none
  nome : Option Msg := none
  /-- `data_nascimento` as a day number. -/
  dataNascimento : Option Nat := none
  telefone : Option Msg := none
  email : Option Msg := none
  carteirinha : Option Msg := none
  tipoAtendimento : Option String := none
  localId : Option Nat := none
  localNome : Option String := none
  especialidadeId : Option Nat := none
  especialidadeNome : Option String := none
  medicoId : Option Nat := none
  medicoNome : Option String := none
  /-- `data_agendamento` as a day number. -/
  dataAgendamento : Option Nat := none
  /-- `hora_agendamento`, minutes of day. -/
  horaAgendamento : Option Nat := none
  /-- `data_formatada`, kept as its distinguishing `(%d, %m)` pair. -/
  dataFormatada : Option (Nat × Nat) := none
  /-- `hora_formatada`, minutes of day. -/
  horaFormatada : Option Nat := none
  anexoRecebido : Bool := false
  anexoNome : Option String := none
  agendamentoTempId : Option Nat := none
  agendamentosParaCancelar : Option (List Nat) := none
deriving DecidableEq, Repr

/-- A `conversas` row, as the engine sees it. -/
structure Conversa where
  estado : String := "inicio"
  dados : Draft := {}
  pacienteId : Option Nat := none
deriving DecidableEq, Repr

/-- One slot descriptor as produced by `_gerar_horarios_disponiveis`. -/
structure HorarioInfo where
  medicoId : Nat
  medicoNome : String
  especialidade : String
  crm : String
  localId : Nat
  localNome : String
  /-- `data`, as a day number. -/
  dia : Nat
  /-- `hora`, minutes of day. -/
  horaMin : Nat
  /-- First five characters of `data_formatada`: the `(%d, %m)` pair. -/
  dataFmtDM : Nat × Nat
  /-- `dia_semana` index (Monday = 0). -/
  diaSemana : Nat
  duracao : Nat
  /-- `timestamp`, modelled monotonically as `dia * 1440 + horaMin`. -/
  timestamp : Nat
deriving DecidableEq, Repr

/-- The chatbot response dictionary.  The long user-facing display texts are
not modelled (kept `""`) except for the short error strings of
`_resposta_erro` call sites, which claims mention. -/
structure Resp where
  success : Bool
  message : String := ""
  tipo : String
  proximoEstado : String
  horarios : List HorarioInfo := []
  agendamentoId : Option Nat := none
  agendamentosListados : List Nat := []
deriving DecidableEq, Repr

/-- The whole environment the service reads and writes: today's clock, the
database tables (lists in row order) with the next row id the persistence
layer will assign, the configuration table, the remote LLM oracle, and the
e-mail regex of `_extrair_email` (not modelled internally; no claim depends
on it). -/
structure Env where
  /-- Today, as a day number. -/
  hoje : Nat
  /-- `datetime.now()`'s time of day, in minutes. -/
  nowMin : Nat
  medicos : List Medico
  horariosDisponiveis : List HorarioDisponivel
  especialidades : List Especialidade
  locais : List LocalAtendimento
  pacientes : List Paciente
  agendamentos : List Agendamento
  /-- Next row id assigned by `create`. -/
  proxId : Nat
  /-- The Gemini call of `_detectar_tipo_mensagem`: `none` = the call raises,
  `some txt` = it answers `txt`. -/
  ai : Msg → Option Msg
  /-- `Configuracao.get_valor` backing table. -/
  config : String → Option String
  /-- `_extrair_email`'s regex, as an oracle. -/
  emailRe : Msg → Option Msg

/-! ## Slot Generation Engine (`_gerar_horarios_disponiveis` and helpers) -/

/-- `Medico.find_by_id`. -/
def findMedico (env : Env) (i : Nat) : Option Medico :=
  env.medicos.find? (fun m => m.id == i)

/-- `Medico.agenda_aberta(data_consulta)` (`models.py`): open when no
`data_abertura_agenda` is configured (or it is unparsable, both `none`
here), else open iff the consultation date is not before it. -/
def agendaAberta (m : Medico) (dataConsulta : Nat) : Bool :=
  match m.dataAberturaAgenda with
  | none => true
  | some abertura => abertura ≤ dataConsulta

/-- The skip test `medico and not medico.agenda_aberta(data_atual)` of the
generation loop. -/
def medicoAgendaFechada (env : Env) (medicoId dataAtual : Nat) : Bool :=
  match findMedico env medicoId with
  | some m => ! agendaAberta m dataAtual
  | none => false

/-- `_verificar_disponibilidade_slot_simples`: true iff no `agendamentos`
row has this doctor, date and time with status `'agendado'`. -/
def verificarDisponibilidadeSlotSimples (env : Env) (medicoId dia hora : Nat) : Bool :=
  ! env.agendamentos.any (fun a =>
      a.medicoId == some medicoId && a.dia == some dia &&
      a.horaMin == some hora && a.status == "agendado")

/-- One row of the `medicos m JOIN horarios_disponiveis h` query feeding the
generator (`m.*, h.*`; `row['medico_id']` resolves to the `h` column). -/
structure MedicoHorarioRow where
  medicoId : Nat
  nome : String
  crm : String
  diaSemana : Nat
  localId : Nat
  horaInicio : Nat
  horaFim : Nat
  duracaoConsulta : Option Nat
deriving DecidableEq, Repr

/-- The consultation duration of a row: the stored value when at least 5
minutes, else 30.  (`none` covers NULL; the source also maps `0` and parse
failures to 30, subsumed by `none` and by `d < 5`.) -/
def duracaoConsultaDe (row : MedicoHorarioRow) : Nat :=
  match row.duracaoConsulta with
  | some d => if d < 5 then 30 else d
  | none => 30

/-- `_obter_dados_medico`: doctor name and specialty name via the
`medicos JOIN especialidades` lookup; `none` when either row is missing. -/
def obterDadosMedico (env : Env) (medicoId : Nat) : Option (String × String) :=
  match env.medicos.find? (fun m => m.id == medicoId) with
  | some m =>
      match env.especialidades.find? (fun e => e.id == m.especialidadeId) with
      | some e => some (m.nome, e.nome)
      | none => none
  | none => none

/-- `_obter_nome_local`. -/
def obterNomeLocal (env : Env) (localId : Nat) : String :=
  match env.locais.find? (fun l => l.id == localId) with
  | some l => l.nome
  | none => "Local não encontrado"

/-- The `horario_info` dictionary appended for a qualifying slot at time `t`
of day `dataAtual`. -/
def mkHorario (env : Env) (row : MedicoHorarioRow) (dataAtual t dur : Nat) : HorarioInfo :=
  { medicoId := row.medicoId
    medicoNome := row.nome
    especialidade := match obterDadosMedico env row.medicoId with
      | some dm => dm.2
      | none => "Especialidade"
    crm := row.crm
    localId := row.localId
    localNome := obterNomeLocal env row.localId
    dia := dataAtual
    horaMin := t
    dataFmtDM := dataFmtDMde dataAtual
    diaSemana := dataAtual % 7
    duracao := dur
    timestamp := dataAtual * 1440 + t }

/-- The inner `while slot_datetime < fim_datetime` loop of
`_gerar_horarios_disponiveis`.  The loop advances `t` by `dur ≥ 5` minutes
per iteration while `t < fim`, so `fim` units of structural fuel always
suffice (`slotLoop_fuel_irrelevante` below); a today-dated slot is skipped
unless strictly later than now + 1 hour, and a slot is collected only when
the simple availability check passes and fewer than 5 slots were
collected. -/
def slotLoop (env : Env) (row : MedicoHorarioRow) (dataAtual dur : Nat) :
    Nat → Nat → Nat → List HorarioInfo → List HorarioInfo
  | 0, _, _, acc => acc
  | fuel + 1, t, fim, acc =>
    if t < fim then
      if 5 ≤ acc.length then acc
      else if dataAtual = env.hoje ∧ t ≤ env.nowMin + 60 then
        slotLoop env row dataAtual dur fuel (t + dur) fim acc
      else if verificarDisponibilidadeSlotSimples env row.medicoId dataAtual t then
        slotLoop env row dataAtual dur fuel (t + dur) fim
          (acc ++ [mkHorario env row dataAtual t dur])
      else
        slotLoop env row dataAtual dur fuel (t + dur) fim acc
    else acc

/-- The `for row in rows` loop for one candidate date: skip rows whose
weekday does not match or whose doctor's agenda is closed for the date,
run the slot loop otherwise, and break once 5 slots are collected. -/
def rowLoop (env : Env) (dataAtual : Nat) :
    List MedicoHorarioRow → List HorarioInfo → List HorarioInfo
  | [], acc => acc
  | row :: resto, acc =>
    if row.diaSemana ≠ dataAtual % 7 then rowLoop env dataAtual resto acc
    else if medicoAgendaFechada env row.medicoId dataAtual then rowLoop env dataAtual resto acc
    else
      let acc' := slotLoop env row dataAtual (duracaoConsultaDe row)
        row.horaFim row.horaInicio row.horaFim acc
      if 5 ≤ acc'.length then acc' else rowLoop env dataAtual resto acc'

/-- The `for dia in range(50)` loop: weekend dates are skipped, the row loop
runs on the rest, and the scan stops once 5 slots are collected. -/
def diaLoop (env : Env) (rows : List MedicoHorarioRow) :
    List Nat → List HorarioInfo → List HorarioInfo
  | [], acc => acc
  | dia :: resto, acc =>
    let dataAtual := env.hoje + dia
    if 5 ≤ dataAtual % 7 then diaLoop env rows resto acc
    else
      let acc' := rowLoop env dataAtual rows acc
      if 5 ≤ acc'.length then acc' else diaLoop env rows resto acc'

/-- The sort key of `_gerar_horarios_disponiveis`: Thursdays (weekday 3 of
the slot's date) first, then chronological. -/
def sortKey (h : HorarioInfo) : Nat × Nat :=
  if h.dia % 7 = 3 then (0, h.timestamp) else (1, h.timestamp)

/-- Python's tuple comparison on sort keys (lexicographic, non-strict). -/
def sortRel (a b : HorarioInfo) : Prop :=
  (sortKey a).1 < (sortKey b).1 ∨
  ((sortKey a).1 = (sortKey b).1 ∧ (sortKey a).2 ≤ (sortKey b).2)

instance : DecidableRel sortRel := fun a b => by unfold sortRel; infer_instance

instance : IsTotal HorarioInfo sortRel := ⟨by intro a b; unfold sortRel; omega⟩

instance : IsTrans HorarioInfo sortRel := ⟨by intro a b c; unfold sortRel; omega⟩

/-- `_gerar_horarios_disponiveis(rows)`: scan the next 50 days, collect at
most 5 qualifying slots, then `sorted(horarios, key=sort_key)[:5]`.
Python's `sorted` is the stable sort by the key's total preorder, which is
exactly `List.insertionSort sortRel`. -/
def gerarHorariosDisponiveis (env : Env) (rows : List MedicoHorarioRow) : List HorarioInfo :=
  let horarios := diaLoop env rows (List.range 50) []
  (List.insertionSort sortRel horarios).take 5

/-! ## Choice Interpreter (`_interpretar_escolha_horario`) -/

/-- `re.match(r'^(\d+)$', s)`: the stripped message is one or more digits. -/
def ehNumero (s : Msg) : Bool := s ≠ [] && s.all Char.isDigit

/-- The second `(\d{1,2})` group of a date pattern, greedy: two digits when
available, else one. -/
def grupoDia2 : Msg → Option Nat
  | d :: e :: _ =>
      if d.isDigit then
        some (if e.isDigit then 10 * digitVal d + digitVal e else digitVal d)
      else none
  | [d] => if d.isDigit then some (digitVal d) else none
  | [] => none

/-- Match of `(\d{1,2})SEP(\d{1,2})` anchored at the head of the string,
with the greedy-then-backtrack semantics of `re`: a two-digit first group is
preferred; if the separator does not follow, the one-digit reading is tried
(which can only succeed when the second character is the separator, never a
digit, so the cases below are exhaustive). -/
def matchDataAqui (sep : Char) : Msg → Option (Nat × Nat)
  | a :: b :: c :: resto =>
      if a.isDigit && b.isDigit && c = sep then
        (grupoDia2 resto).map (fun m => (10 * digitVal a + digitVal b, m))
      else if a.isDigit && b = sep then
        (grupoDia2 (c :: resto)).map (fun m => (digitVal a, m))
      else none
  | _ => none

/-- `re.search` of a date pattern: the match at the leftmost position where
one exists. -/
def buscarDataSep (sep : Char) : Msg → Option (Nat × Nat)
  | [] => none
  | c :: resto =>
      match matchDataAqui sep (c :: resto) with
      | some r => some r
      | none => buscarDataSep sep resto

/-- The date-extraction loop: patterns `D/M`, `D-M`, `D.M`, first pattern
with a match anywhere wins.  The result abstracts
`f"{int(dia):02d}/{int(mes):02d}/{ano}"` by its first-five-characters pair
`(dia, mes)` (both groups are at most two digits, so the rendering is
exactly two digits each). -/
def buscarData (mensagem : Msg) : Option (Nat × Nat) :=
  match buscarDataSep '/' mensagem with
  | some r => some r
  | none =>
    match buscarDataSep '-' mensagem with
    | some r => some r
    | none => buscarDataSep '.' mensagem

/-- Match of `(\d{1,2}):(\d{2})` anchored at the head (same backtracking
discipline as the date patterns; the second group is exactly two digits). -/
def matchHoraColonAqui : Msg → Option (Nat × Nat)
  | a :: b :: resto =>
      if a.isDigit && b.isDigit then
        match resto with
        | c :: d :: e :: _ =>
            if c = ':' && d.isDigit && e.isDigit then
              some (10 * digitVal a + digitVal b, 10 * digitVal d + digitVal e)
            else none
        | _ => none
      else if a.isDigit && b = ':' then
        match resto with
        | d :: e :: _ =>
            if d.isDigit && e.isDigit then some (digitVal a, 10 * digitVal d + digitVal e)
            else none
        | _ => none
      else none
  | _ => none

/-- Match of `(\d{1,2})h(\d{2})?` anchored at the head; the optional group
is present exactly when two digits follow the `h`. -/
def matchHoraHAqui : Msg → Option (Nat × Option Nat)
  | a :: b :: resto =>
      if a.isDigit && b.isDigit then
        match resto with
        | c :: resto' =>
            if c = 'h' then
              some (10 * digitVal a + digitVal b,
                match resto' with
                | d :: e :: _ =>
                    if d.isDigit && e.isDigit then some (10 * digitVal d + digitVal e) else none
                | _ => none)
            else none
        | [] => none
      else if a.isDigit && b = 'h' then
        some (digitVal a,
          match resto with
          | d :: e :: _ =>
              if d.isDigit && e.isDigit then some (10 * digitVal d + digitVal e) else none
          | _ => none)
      else none
  | _ => none

/-- Match of `(\d{1,2}) horas?` anchored at the head (the optional final
`s` does not affect the captured group). -/
def matchHoraExtensoAqui : Msg → Option Nat
  | a :: b :: resto =>
      if a.isDigit && b.isDigit then
        if " hora".toList.isPrefixOf resto then some (10 * digitVal a + digitVal b) else none
      else if a.isDigit then
        if " hora".toList.isPrefixOf (b :: resto) then some (digitVal a) else none
      else none
  | _ => none

/-- `re.search` for `(\d{1,2}):(\d{2})`. -/
def buscarHoraColon : Msg → Option (Nat × Nat)
  | [] => none
  | c :: resto =>
      match matchHoraColonAqui (c :: resto) with
      | some r => some r
      | none => buscarHoraColon resto

/-- `re.search` for `(\d{1,2})h(\d{2})?`. -/
def buscarHoraH : Msg → Option (Nat × Option Nat)
  | [] => none
  | c :: resto =>
      match matchHoraHAqui (c :: resto) with
      | some r => some r
      | none => buscarHoraH resto

/-- `re.search` for `(\d{1,2}) horas?`. -/
def buscarHoraExtenso : Msg → Option Nat
  | [] => none
  | c :: resto =>
      match matchHoraExtensoAqui (c :: resto) with
      | some r => some r
      | none => buscarHoraExtenso resto

/-- The time-extraction loop, first pattern with a match wins; a missing
optional minute group and the `H horas` form both yield minute 0.  The
result abstracts `f"{hora:02d}:{minutos:02d}"` by its `(hora, minutos)`
pair. -/
def buscarHora (mensagem : Msg) : Option (Nat × Nat) :=
  match buscarHoraColon mensagem with
  | some r => some r
  | none =>
    match buscarHoraH mensagem with
    | some (h, om) => some (h, om.getD 0)
    | none =>
      match buscarHoraExtenso mensagem with
      | some h => some (h, 0)
      | none => none

/-- `_interpretar_escolha_horario(mensagem, horarios_disponiveis)`.
A purely numeric (stripped) message is a 1-based index, rejected outside
`[1, len]` (`0 ≤ int - 1` is `1 ≤ int` on integers).  Otherwise date and
time fragments are extracted independently from the raw message and the
first candidate passing the present filters is returned; a candidate's
formatted time `%H:%M` equals the extracted pair iff the
`(hour, minute) = (horaMin / 60, horaMin % 60)` pairs agree. -/
def interpretarEscolhaHorario (mensagem : Msg) (horariosDisponiveis : List HorarioInfo) :
    Option HorarioInfo :=
  let mensagemClean := trimL mensagem
  if ehNumero mensagemClean then
    let n := natOfDigits mensagemClean
    if 1 ≤ n ∧ n - 1 < horariosDisponiveis.length then horariosDisponiveis.get? (n - 1)
    else none
  else
    let dataEncontrada := buscarData mensagem
    let horaEncontrada := buscarHora mensagem
    horariosDisponiveis.find? (fun horario =>
      (match dataEncontrada with
       | none => true
       | some dm => dm == horario.dataFmtDM) &&
      (match horaEncontrada with
       | none => true
       | some hm => hm == (horario.horaMin / 60, horario.horaMin % 60)))

/-! ## Message-classification helpers -/

/-- The greeting substrings of `_eh_saudacao`. -/
def saudacoes : List Msg :=
  ["oi".toList, "olá".toList, "ola".toList, "hey".toList, "hello".toList,
   "bom dia".toList, "boa tarde".toList, "boa noite".toList]

/-- `_eh_saudacao`: some greeting occurs as a substring of the lowercased
message. -/
def ehSaudacao (mensagem : Msg) : Bool :=
  saudacoes.any (fun s => contem s (lowerL mensagem))

/-- The cancellation keywords of `_eh_cancelamento`. -/
def palavrasCancelamento : List Msg :=
  ["cancelar".toList, "desmarcar".toList, "remover consulta".toList,
   "cancelo".toList, "cancelamento".toList]

/-- `_eh_cancelamento`: some cancellation keyword occurs as a substring of
the lowercased message. -/
def ehCancelamento (mensagem : Msg) : Bool :=
  palavrasCancelamento.any (fun p => contem p (lowerL mensagem))

/-- `_extrair_cpf`: the digits of the message when exactly 11. -/
def extrairCpf (mensagem : Msg) : Option Msg :=
  let numeros := mensagem.filter Char.isDigit
  if numeros.length = 11 then some numeros else none

/-- `_extrair_telefone`: the digits of the message when 10 or 11. -/
def extrairTelefone (mensagem : Msg) : Option Msg :=
  let telefone := mensagem.filter Char.isDigit
  if 10 ≤ telefone.length && telefone.length ≤ 11 then some telefone else none

/-- The five labels `_detectar_tipo_mensagem` accepts from the LLM. -/
def tiposValidos : List Msg :=
  ["agendamento".toList, "cancelamento".toList, "consulta".toList,
   "informacao".toList, "fora_escopo".toList]

/-- `_detectar_tipo_mensagem`: fixed keyword rules first; then the LLM
oracle, whose answer (stripped, lowercased; an empty reply defaults to
scheduling) is accepted only when it is one of the five labels; on an
oracle exception, the heuristic keyword list; scheduling as final
default. -/
def detectarTipoMensagem (env : Env) (mensagem : Msg) : String :=
  let mensagemLower := trimL (lowerL mensagem)
  if ["cancelar".toList, "desmarcar".toList, "remover consulta".toList,
      "cancelo".toList].any (fun p => contem p mensagemLower) then "cancelamento"
  else if ["meus agendamentos".toList, "minhas consultas".toList,
      "consultar agendamento".toList, "ver consultas".toList].any
      (fun p => contem p mensagemLower) then "consulta"
  else if ["telefone".toList, "endereço".toList, "onde fica".toList,
      "horário funcionamento".toList, "localização".toList].any
      (fun p => contem p mensagemLower) then "informacao"
  else if ["clima".toList, "tempo".toList, "futebol".toList, "política".toList,
      "receita culinária".toList].any (fun p => contem p mensagemLower) then "fora_escopo"
  else
    match env.ai mensagem with
    | some txt =>
        let resultado := if txt = [] then "agendamento".toList else trimL (lowerL txt)
        if tiposValidos.contains resultado then String.mk resultado else "agendamento"
    | none =>
        if ["oi".toList, "olá".toList, "ola".toList, "bom dia".toList,
            "boa tarde".toList, "boa noite".toList, "hello".toList, "hi".toList,
            "dor".toList, "problema".toList, "consulta".toList, "médico".toList,
            "doutor".toList, "sintoma".toList, "doença".toList, "preciso".toList,
            "quero marcar".toList, "agendar".toList, "emergência".toList].any
            (fun p => contem p mensagemLower) then "agendamento"
        else "agendamento"

/-! ## Field validators -/

/-- Greedy digit run for `strptime` (at least one, at most `maxN` digits,
no backtracking), returning the value and the rest of the string. -/
def pegarDigitos (maxN : Nat) (s : Msg) : Option (Nat × Msg) :=
  let pref := (s.take maxN).takeWhile Char.isDigit
  if pref = [] then none else some (natOfDigits pref, s.drop pref.length)

/-- `datetime.strptime(data_str, '%d' SEP '%m' SEP '%Y')`: three greedy
digit runs (≤2, ≤2, ≤4) separated by `sep`, consuming the whole string.
(CPython's `%Y` matches exactly four digits; the 1–4 greedy run here
differs only for years below 1000, which the 1900 lower bound of the
validator rejects anyway.) -/
def parseDataNascimentoSep (sep : Char) (s : Msg) : Option (Nat × Nat × Nat) := do
  let (d, r1) ← pegarDigitos 2 s
  match r1 with
  | c1 :: r2 =>
    if c1 = sep then do
      let (m, r3) ← pegarDigitos 2 r2
      match r3 with
      | c2 :: r4 =>
        if c2 = sep then do
          let (y, r5) ← pegarDigitos 4 r4
          if r5 = [] then some (d, m, y) else none
        else none
      | [] => none
    else none
  | [] => none

/-- `strptime`'s calendar validity: year ≥ 1 (datetime.MINYEAR), month in
1–12, day within the month. -/
def dataExiste (y m d : Nat) : Bool :=
  1 ≤ y && 1 ≤ m && m ≤ 12 && 1 ≤ d && d ≤ diasNoMes y m

/-- One format attempt of `_validar_data_nascimento`: parse, check the date
exists, then accept only dates between 1900-01-01 and today (a parse that
succeeds but fails the range check falls through to the next format, which
then fails to parse — `none` either way). -/
def validarDataUm (env : Env) (sep : Char) (s : Msg) : Option Nat :=
  match parseDataNascimentoSep sep s with
  | some (d, m, y) =>
      if dataExiste y m d then
        if 1900 ≤ y then
          let dn := dayNumber y m d
          if dn ≤ env.hoje then some dn else none
        else none
      else none
  | none => none

/-- `_validar_data_nascimento(data_str)`: formats `%d/%m/%Y`, `%d-%m-%Y`,
`%d.%m.%Y` in order; the result is the birth date's day number. -/
def validarDataNascimento (env : Env) (dataStr : Msg) : Option Nat :=
  match validarDataUm env '/' dataStr with
  | some r => some r
  | none =>
    match validarDataUm env '-' dataStr with
    | some r => some r
    | none => validarDataUm env '.' dataStr

/-! ## Dialogue state handlers

Each handler takes the environment, the message and the conversation (plus,
where the source passes it, the decoded draft) and returns the response
together with the updated conversation and environment — the pure image of
the source's in-place mutation of `conversa` and of the database. -/

/-- `_resposta_erro(mensagem)`. -/
def respostaErro (mensagem : String) : Resp :=
  { success := false, message := mensagem, tipo := "erro", proximoEstado := "inicio" }

/-- `_processar_inicio`: classify the message and branch; scheduling (the
default) asks for the patient id and moves to `aguardando_cpf`. -/
def processarInicio (env : Env) (mensagem : Msg) (conversa : Conversa) :
    Resp × Conversa × Env :=
  let tipo := detectarTipoMensagem env mensagem
  if tipo = "cancelamento" then
    ({ success := true, tipo := "texto", proximoEstado := "cancelamento" },
     { conversa with estado := "cancelamento" }, env)
  else if tipo = "consulta" then
    ({ success := true, tipo := "texto", proximoEstado := "consulta_agendamentos" },
     { conversa with estado := "consulta_agendamentos" }, env)
  else if tipo = "informacao" then
    ({ success := true, tipo := "info", proximoEstado := "inicio" }, conversa, env)
  else if tipo = "fora_escopo" then
    ({ success := true, tipo := "orientacao", proximoEstado := "inicio" }, conversa, env)
  else
    ({ success := true, tipo := "texto", proximoEstado := "aguardando_cpf" },
     { conversa with estado := "aguardando_cpf" }, env)

/-- `_processar_cancelamento_cpf_valido(conversa, paciente)`: list the
patient's status-`agendado` appointments; none → failure reply pointing at
the start (conversation untouched); otherwise store their ids (replacing
the whole draft) and ask for an index. -/
def processarCancelamentoCpfValido (env : Env) (conversa : Conversa) (paciente : Paciente) :
    Resp × Conversa × Env :=
  let agendamentos := (env.agendamentos.filter (fun a => a.pacienteId == some paciente.id)).filter
    (fun a => a.status == "agendado")
  if agendamentos = [] then
    ({ success := false, tipo := "texto", proximoEstado := "inicio" }, conversa, env)
  else
    ({ success := true, tipo := "cancelamento", proximoEstado := "cancelamento",
       agendamentosListados := agendamentos.map (·.id) },
     { conversa with dados :=
        { agendamentosParaCancelar := some (agendamentos.map (·.id)) } }, env)

/-- `_processar_consulta_agendamentos_cpf_valido(conversa, paciente)`: list
all the patient's appointments; none → reply pointing at the start
(conversation untouched); otherwise reply with the grouped listing,
finishing the conversation with an empty draft. -/
def processarConsultaAgendamentosCpfValido (env : Env) (conversa : Conversa)
    (paciente : Paciente) : Resp × Conversa × Env :=
  let agendamentos := env.agendamentos.filter (fun a => a.pacienteId == some paciente.id)
  if agendamentos = [] then
    ({ success := true, tipo := "texto", proximoEstado := "inicio" }, conversa, env)
  else
    ({ success := true, tipo := "consulta", proximoEstado := "inicio",
       agendamentosListados := agendamentos.map (·.id) },
     { conversa with estado := "finalizado", dados := {} }, env)

/-- `_processar_cpf`: extract the 11-digit id (else re-prompt, state
unchanged); look the patient up; a found patient is routed by the stored
intent (`mensagem_inicial` keyword or the current state) to cancellation,
lookup, or on to location choice; an unknown patient is rejected (response
advertising `inicio`, conversation untouched) when the state is the
cancellation or lookup flow, and sent to registration otherwise. -/
def processarCpf (env : Env) (mensagem : Msg) (conversa : Conversa) :
    Resp × Conversa × Env :=
  match extrairCpf mensagem with
  | none =>
      ({ success := false, message := "CPF inválido. Por favor, digite apenas os 11 números do CPF:",
         tipo := "texto", proximoEstado := "aguardando_cpf" }, conversa, env)
  | some cpf =>
    let dadosTemp := conversa.dados
    let acaoDesejada := dadosTemp.acaoDesejada.getD "agendar"
    match env.pacientes.find? (fun p => p.cpf == cpf) with
    | some paciente =>
      let conversa1 : Conversa :=
        { conversa with
          pacienteId := some paciente.id
          dados := { cpf := some cpf, pacienteId := some paciente.id,
                     acaoDesejada := some acaoDesejada } }
      let mensagemAnterior := lowerL (dadosTemp.mensagemInicial.getD [])
      if contem "cancelar".toList mensagemAnterior || conversa1.estado = "cancelamento" then
        processarCancelamentoCpfValido env conversa1 paciente
      else if contem "consultar".toList mensagemAnterior ||
          conversa1.estado = "consulta_agendamentos" then
        processarConsultaAgendamentosCpfValido env conversa1 paciente
      else
        ({ success := true, tipo := "locais", proximoEstado := "local" },
         { conversa1 with estado := "local" }, env)
    | none =>
      if conversa.estado = "cancelamento" ∨ conversa.estado = "consulta_agendamentos" then
        ({ success := false, tipo := "texto", proximoEstado := "inicio" }, conversa, env)
      else
        ({ success := true, tipo := "texto", proximoEstado := "cadastro" },
         { conversa with
           estado := "cadastro"
           dados := { cpf := some cpf, etapaCadastro := some "nome" } }, env)

/-- `_processar_cadastro`: the ordered registration steps.  The reads
`dados['cpf']`, `dados['nome']`, `dados['telefone']` at patient creation are
direct key accesses; this state is only reached with those keys set by the
preceding steps, and they are modelled with defaults.  An unknown step value
makes the source fall off the function returning `None`; that dead end is
modelled by the sentinel below. -/
def processarCadastro (env : Env) (mensagem : Msg) (conversa : Conversa) (dados : Draft) :
    Resp × Conversa × Env :=
  let etapa := dados.etapaCadastro.getD "nome"
  if etapa = "nome" then
    ({ success := true, tipo := "texto", proximoEstado := "cadastro" },
     { conversa with dados :=
        { dados with nome := some (trimL mensagem), etapaCadastro := some "data_nascimento" } },
     env)
  else if etapa = "data_nascimento" then
    match validarDataNascimento env (trimL mensagem) with
    | none =>
        ({ success := false, tipo := "texto", proximoEstado := "cadastro" }, conversa, env)
    | some dataNascimento =>
        ({ success := true, tipo := "texto", proximoEstado := "cadastro" },
         { conversa with dados :=
            { dados with dataNascimento := some dataNascimento,
                         etapaCadastro := some "telefone" } }, env)
  else if etapa = "telefone" then
    match extrairTelefone mensagem with
    | none =>
        ({ success := false, tipo := "texto", proximoEstado := "cadastro" }, conversa, env)
    | some telefone =>
        ({ success := true, tipo := "texto", proximoEstado := "cadastro" },
         { conversa with dados :=
            { dados with telefone := some telefone, etapaCadastro := some "email" } }, env)
  else if etapa = "email" then
    if ["pular".toList, "não".toList, "nao".toList].contains (lowerL (trimL mensagem)) then
      ({ success := true, tipo := "texto", proximoEstado := "cadastro" },
       { conversa with dados :=
          { dados with email := none, etapaCadastro := some "carteirinha" } }, env)
    else
      match env.emailRe mensagem with
      | none =>
          ({ success := false, tipo := "texto", proximoEstado := "cadastro" }, conversa, env)
      | some email =>
          ({ success := true, tipo := "texto", proximoEstado := "cadastro" },
           { conversa with dados :=
              { dados with email := some email, etapaCadastro := some "carteirinha" } }, env)
  else if etapa = "carteirinha" then
    let mensagemLower := lowerL (trimL mensagem)
    let pulou := ["particular".toList, "nao".toList, "não".toList,
      "sem plano".toList, "pular".toList].contains mensagemLower
    let carteirinhaLimpa := mensagem.filter Char.isAlphanum
    if ¬ pulou ∧ carteirinhaLimpa.length < 6 then
      ({ success := false, tipo := "texto", proximoEstado := "cadastro" }, conversa, env)
    else
      let carteirinha := if pulou then none else some (carteirinhaLimpa.take 50)
      let tipoAtendimento := if pulou then "particular" else "plano"
      let novoPaciente : Paciente :=
        { id := env.proxId, cpf := dados.cpf.getD [], nome := dados.nome.getD [] |> String.mk }
      ({ success := true, tipo := "locais", proximoEstado := "local" },
       { conversa with
         pacienteId := some novoPaciente.id
         estado := "local"
         dados := { dados with
                    carteirinha := carteirinha
                    tipoAtendimento := some tipoAtendimento
                    pacienteId := some novoPaciente.id } },
       { env with pacientes := env.pacientes ++ [novoPaciente], proxId := env.proxId + 1 })
  else
    ({ success := false, tipo := "none", proximoEstado := "" }, conversa, env)

/-- `_processar_local`: bidirectional substring match of the message against
active location names and (non-empty) cities; first match stores the
location and advances to specialty choice, otherwise re-list and stay. -/
def processarLocal (env : Env) (mensagem : Msg) (conversa : Conversa) :
    Resp × Conversa × Env :=
  let locais := env.locais.filter (·.ativo)
  let mensagemLower := trimL (lowerL mensagem)
  match locais.find? (fun l =>
      contem (lowerL l.nome.toList) mensagemLower ||
      (l.cidade ≠ "" && contem (lowerL l.cidade.toList) mensagemLower) ||
      contem mensagemLower (lowerL l.nome.toList) ||
      (l.cidade ≠ "" && contem mensagemLower (lowerL l.cidade.toList))) with
  | some localEscolhido =>
      ({ success := true, tipo := "especialidades", proximoEstado := "especialidade" },
       { conversa with
         estado := "especialidade"
         dados := { conversa.dados with
                    localId := some localEscolhido.id
                    localNome := some localEscolhido.nome } }, env)
  | none =>
      ({ success := false, tipo := "locais", proximoEstado := "local" }, conversa, env)

/-- The `medicos m JOIN horarios_disponiveis h` query of
`_processar_horarios` (active doctors of the specialty × their active
availability rows at the location), in nested-loop row order. -/
def medicosHorariosRows (env : Env) (especialidadeId localId : Nat) : List MedicoHorarioRow :=
  env.medicos.flatMap (fun m =>
    if m.especialidadeId == especialidadeId && m.ativo then
      (env.horariosDisponiveis.filter (fun h =>
        h.medicoId == m.id && h.localId == localId && h.ativo)).map (fun h =>
          { medicoId := h.medicoId, nome := m.nome, crm := m.crm,
            diaSemana := h.diaSemana, localId := h.localId,
            horaInicio := h.horaInicio, horaFim := h.horaFim,
            duracaoConsulta := h.duracaoConsulta })
    else [])

/-- `_processar_horarios`: regenerate the candidate slots; an empty (or
unmatched) message re-shows them; a matched choice is stored in the draft
and, when the specialty requires an attachment, a placeholder appointment
with status `pendente_anexo` is created and the flow moves to
`solicitacao_anexo`, else to `confirmacao`.  Missing ids (absent or 0,
both falsy) reset the conversation. -/
def processarHorarios (env : Env) (mensagem : Msg) (conversa : Conversa) (dados : Draft) :
    Resp × Conversa × Env :=
  let localId := dados.localId.getD 0
  let especialidadeId := dados.especialidadeId.getD 0
  if localId = 0 ∨ especialidadeId = 0 then
    (respostaErro "Erro nos dados. Vamos recomeçar.",
     { conversa with estado := "inicio", dados := {} }, env)
  else
    let rows := medicosHorariosRows env especialidadeId localId
    if rows = [] then
      -- the source distinguishes "no doctors" from "no availability" only in
      -- the display text
      ({ success := false, tipo := "especialidades", proximoEstado := "especialidade" },
       conversa, env)
    else
      let horariosDisponiveis := gerarHorariosDisponiveis env rows
      if horariosDisponiveis = [] then
        ({ success := false, tipo := "especialidades", proximoEstado := "especialidade" },
         conversa, env)
      else if trimL mensagem = [] then
        ({ success := true, tipo := "horarios", proximoEstado := "horarios",
           horarios := horariosDisponiveis }, conversa, env)
      else
        match interpretarEscolhaHorario mensagem horariosDisponiveis with
        | some escolha =>
          let dados1 : Draft :=
            { dados with
              medicoId := some escolha.medicoId
              medicoNome := some escolha.medicoNome
              especialidadeNome := some (dados.especialidadeNome.getD "Especialidade")
              dataAgendamento := some escolha.dia
              horaAgendamento := some escolha.horaMin
              dataFormatada := some escolha.dataFmtDM
              horaFormatada := some escolha.horaMin }
          let requerAnexo :=
            match env.especialidades.find? (fun e => e.id == especialidadeId) with
            | some especialidade => especialidade.requerAnexo
            | none => false
          if requerAnexo then
            let tempAgendamento : Agendamento :=
              { id := env.proxId
                pacienteId := conversa.pacienteId
                medicoId := some escolha.medicoId
                especialidadeId := some especialidadeId
                localId := some escolha.localId
                dia := some escolha.dia
                horaMin := some escolha.horaMin
                status := "pendente_anexo" }
            ({ success := true, tipo := "solicitacao_anexo",
               proximoEstado := "solicitacao_anexo" },
             { conversa with
               estado := "solicitacao_anexo"
               dados := { dados1 with agendamentoTempId := some tempAgendamento.id } },
             { env with
               agendamentos := env.agendamentos ++ [tempAgendamento]
               proxId := env.proxId + 1 })
          else
            ({ success := true, tipo := "confirmacao", proximoEstado := "confirmacao" },
             { conversa with estado := "confirmacao", dados := dados1 }, env)
        | none =>
            ({ success := true, tipo := "horarios", proximoEstado := "horarios",
               horarios := horariosDisponiveis }, conversa, env)

/-- `_processar_solicitacao_anexo`: "sent" synonyms mark the attachment
received and move to confirmation; "skip" synonyms move on without it;
"link" synonyms create a placeholder appointment for the upload link (the
source reads the never-set draft keys `data`/`hora` there, hence NULL date
and time) and stay; anything else re-prompts and stays. -/
def processarSolicitacaoAnexo (env : Env) (mensagem : Msg) (conversa : Conversa)
    (dados : Draft) : Resp × Conversa × Env :=
  let mensagemLower := trimL (lowerL mensagem)
  if ["enviei".toList, "enviado".toList, "anexei".toList, "anexado".toList,
      "upload".toList, "foto".toList, "arquivo".toList, "ok".toList,
      "pronto".toList, "sim".toList].any (fun p => contem p mensagemLower) then
    ({ success := true, tipo := "confirmacao", proximoEstado := "confirmacao" },
     { conversa with
       estado := "confirmacao"
       dados := { dados with
         anexoRecebido := true
         anexoNome := some ("pedido_medico_" ++
           match dados.pacienteId with
           | some i => toString i
           | none => "user") } }, env)
  else if ["pular".toList, "sem anexo".toList, "não tenho".toList, "nao tenho".toList,
      "depois".toList, "não".toList, "nao".toList].any
      (fun p => contem p mensagemLower) then
    ({ success := true, tipo := "confirmacao", proximoEstado := "confirmacao" },
     { conversa with estado := "confirmacao" }, env)
  else if ["link".toList, "upload".toList, "anexo".toList].any
      (fun p => contem p mensagemLower) then
    let tempAgendamento : Agendamento :=
      { id := env.proxId
        pacienteId := conversa.pacienteId
        medicoId := dados.medicoId
        especialidadeId := dados.especialidadeId
        localId := dados.localId
        dia := none
        horaMin := none
        status := "pendente_anexo" }
    ({ success := true, tipo := "solicitacao_anexo", proximoEstado := "solicitacao_anexo" },
     { conversa with dados := { dados with agendamentoTempId := some tempAgendamento.id } },
     { env with
       agendamentos := env.agendamentos ++ [tempAgendamento]
       proxId := env.proxId + 1 })
  else
    ({ success := true, tipo := "solicitacao_anexo", proximoEstado := "solicitacao_anexo" },
     conversa, env)

/-- The affirmative keywords of `_processar_confirmacao`. -/
def palavrasAfirmativas : List Msg :=
  ["sim".toList, "s".toList, "confirmo".toList, "ok".toList, "confirmar".toList]

/-- The negative keywords of `_processar_confirmacao`. -/
def palavrasNegativas : List Msg :=
  ["não".toList, "nao".toList, "n".toList, "cancelar".toList, "voltar".toList]

/-- Affirmative test of `_processar_confirmacao` (substring match on the
lowercased stripped message). -/
def ehAfirmativa (mensagem : Msg) : Bool :=
  palavrasAfirmativas.any (fun p => contem p (trimL (lowerL mensagem)))

/-- Negative test of `_processar_confirmacao`. -/
def ehNegativa (mensagem : Msg) : Bool :=
  palavrasNegativas.any (fun p => contem p (trimL (lowerL mensagem)))

/-- The inner-`except` response of the affirmative branch of
`_processar_confirmacao`. -/
def respostaErroConfirmacao : Resp :=
  { success := false, message := "Erro ao confirmar agendamento. Tente novamente.",
    tipo := "erro", proximoEstado := "horarios" }

/-- `_processar_confirmacao`: an affirmative message creates a **new**
appointment row from the draft (default status `agendado`), finishes the
conversation and clears the draft; a negative one returns to slot choice;
anything else re-prompts.  The affirmative branch runs under an inner
`try`: a missing draft key raises `KeyError` and yields the error response.
The keys whose direct accesses can raise before the `create` call
(`especialidade_id` in the observações step, then the five ids of the
`create` keyword arguments) are checked together in the 5-way match — any
of them missing leaves conversation and store untouched, exactly as in the
source; a missing display key (`medico_nome`, `especialidade_nome`,
`data_formatada`, `hora_formatada`) raises only after the row was inserted
and the conversation finished, so that partial mutation persists. -/
def processarConfirmacao (env : Env) (mensagem : Msg) (conversa : Conversa) (dados : Draft) :
    Resp × Conversa × Env :=
  if ehAfirmativa mensagem then
    let anexoNome := dados.anexoNome.getD ""
    match dados.medicoId, dados.especialidadeId, dados.localId,
        dados.dataAgendamento, dados.horaAgendamento with
    | some medicoId, some especialidadeId, some localId, some dia, some hora =>
      let observacoes : String :=
        if dados.anexoRecebido then "✅ Pedido médico anexado via chatbot"
        else if anexoNome = "" then
          match env.especialidades.find? (fun e => e.id == especialidadeId) with
          | some especialidade =>
              if especialidade.requerAnexo then
                "⚠️ Especialidade requer pedido médico - levar documento físico"
              else ""
          | none => ""
        else ""
      let anexoPath : String := if dados.anexoRecebido then "anexos/" ++ anexoNome else ""
      let agendamento : Agendamento :=
        { id := env.proxId
          pacienteId := conversa.pacienteId
          medicoId := some medicoId
          especialidadeId := some especialidadeId
          localId := some localId
          dia := some dia
          horaMin := some hora
          observacoes := observacoes
          anexoNome := anexoNome
          anexoPath := anexoPath }
      let env1 : Env :=
        { env with
          agendamentos := env.agendamentos ++ [agendamento]
          proxId := env.proxId + 1 }
      let conversa1 : Conversa := { conversa with estado := "finalizado", dados := {} }
      if dados.medicoNome.isSome ∧ dados.especialidadeNome.isSome ∧
          dados.dataFormatada.isSome ∧ dados.horaFormatada.isSome then
        ({ success := true, tipo := "sucesso", proximoEstado := "finalizado",
           agendamentoId := some agendamento.id }, conversa1, env1)
      else
        (respostaErroConfirmacao, conversa1, env1)
    | _, _, _, _, _ => (respostaErroConfirmacao, conversa, env)
  else if ehNegativa mensagem then
    ({ success := true, tipo := "horarios", proximoEstado := "horarios" },
     { conversa with estado := "horarios" }, env)
  else
    ({ success := false, tipo := "confirmacao", proximoEstado := "confirmacao" },
     conversa, env)

/-- `_processar_cancelamento`: with a pending numbered list, parse a 1-based
index, cancel the chosen still-`agendado` appointment (status `cancelado`,
fixed reason) and finish; invalid input re-prompts.  Without a list,
delegate to the id handler. -/
def processarCancelamento (env : Env) (mensagem : Msg) (conversa : Conversa) :
    Resp × Conversa × Env :=
  let dados := conversa.dados
  match dados.agendamentosParaCancelar with
  | some agendamentosIds =>
    match parseInt (trimL mensagem) with
    | none =>
        ({ success := false, tipo := "cancelamento", proximoEstado := "cancelamento" },
         conversa, env)
    | some numero =>
      if 1 ≤ numero ∧ numero ≤ (agendamentosIds.length : Int) then
        let agendamentoId := agendamentosIds.getD (numero - 1).toNat 0
        match env.agendamentos.find? (fun a => a.id == agendamentoId) with
        | some agendamento =>
          if agendamento.status = "agendado" then
            ({ success := true, tipo := "sucesso", proximoEstado := "finalizado" },
             { conversa with estado := "finalizado", dados := {} },
             { env with agendamentos := env.agendamentos.map (fun a =>
                 if a.id == agendamentoId then
                   { a with
                     status := "cancelado"
                     motivoCancelamento := "Cancelado pelo paciente via chatbot" }
                 else a) })
          else
            ({ success := false, tipo := "cancelamento", proximoEstado := "cancelamento" },
             conversa, env)
        | none =>
            ({ success := false, tipo := "cancelamento", proximoEstado := "cancelamento" },
             conversa, env)
      else
        ({ success := false, tipo := "cancelamento", proximoEstado := "cancelamento" },
         conversa, env)
  | none => processarCpf env mensagem conversa

/-- The symptom-keyword map of `_processar_especialidade`, in source
(insertion) order. -/
def mapeamentoSintomas : List (Msg × String) :=
  [("coração".toList, "Cardiologia"), ("pele".toList, "Dermatologia"),
   ("criança".toList, "Pediatria"), ("neuro".toList, "NeuroPediatra"),
   ("neurologia".toList, "NeuroPediatra"), ("neurologista".toList, "NeuroPediatra"),
   ("neuropediatra".toList, "NeuroPediatra"), ("pediatra".toList, "NeuroPediatra"),
   ("avaliação".toList, "Avaliação - terapia"), ("terapia".toList, "Avaliação - terapia"),
   ("avaliacao".toList, "Avaliação - terapia"), ("mulher".toList, "Ginecologia"),
   ("osso".toList, "Ortopedia"), ("mental".toList, "Psiquiatria"),
   ("olho".toList, "Oftalmologia")]

/-- `_processar_especialidade`: the candidate set is the active specialties
with an active doctor having active availability at the chosen location
(all specialties when no location is stored); match by bidirectional
substring, else through the symptom map; a match with no active doctors
re-prompts (the state already moved to `horarios`); a full match stores the
specialty and immediately runs the slot handler on an empty message. -/
def processarEspecialidade (env : Env) (mensagem : Msg) (conversa : Conversa) :
    Resp × Conversa × Env :=
  let dados := conversa.dados
  let especialidades : List Especialidade :=
    match dados.localId with
    | some localId =>
        env.especialidades.filter (fun e =>
          e.ativo && env.medicos.any (fun m =>
            m.ativo && m.especialidadeId == e.id &&
            env.horariosDisponiveis.any (fun h =>
              h.ativo && h.medicoId == m.id && h.localId == localId)))
    | none => env.especialidades.filter (·.ativo)
  let mensagemLower := trimL (lowerL mensagem)
  let escolhida : Option Especialidade :=
    match especialidades.find? (fun e =>
        contem (lowerL e.nome.toList) mensagemLower ||
        contem mensagemLower (lowerL e.nome.toList)) with
    | some e => some e
    | none =>
        mapeamentoSintomas.findSome? (fun pn =>
          if contem pn.1 mensagemLower then
            especialidades.find? (fun e =>
              contem (lowerL pn.2.toList) (lowerL e.nome.toList))
          else none)
  match escolhida with
  | some especialidadeEscolhida =>
    let dados1 : Draft :=
      { dados with
        especialidadeId := some especialidadeEscolhida.id
        especialidadeNome := some especialidadeEscolhida.nome }
    let conversa1 : Conversa := { conversa with estado := "horarios", dados := dados1 }
    let medicosEspecialidade := (env.medicos.filter (·.ativo)).filter
      (fun m => m.especialidadeId == especialidadeEscolhida.id)
    if medicosEspecialidade = [] then
      ({ success := false, tipo := "especialidades", proximoEstado := "especialidade" },
       conversa1, env)
    else
      processarHorarios env [] conversa1 dados1
  | none =>
      ({ success := false, tipo := "especialidades", proximoEstado := "especialidade" },
       conversa, env)

/-- `processar_mensagem`'s dispatch body (inside its `try`): the global
cancellation-keyword override (any state but `cancelamento`), then the
greeting override (always resets to the start), then the per-state
handlers, with unknown states reset to the start. -/
def processarMensagem (env : Env) (mensagem : Msg) (conversa : Conversa) :
    Resp × Conversa × Env :=
  let estado := if conversa.estado = "" then "inicio" else conversa.estado
  let dados := conversa.dados
  if estado ≠ "cancelamento" ∧ ehCancelamento mensagem then
    processarCancelamento env mensagem { conversa with estado := "cancelamento", dados := {} }
  else if ehSaudacao mensagem then
    processarInicio env mensagem { conversa with estado := "inicio", dados := {} }
  else if estado = "inicio" ∨ estado = "finalizado" then
    processarInicio env mensagem conversa
  else if estado = "aguardando_cpf" then processarCpf env mensagem conversa
  else if estado = "cadastro" then processarCadastro env mensagem conversa dados
  else if estado = "local" then processarLocal env mensagem conversa
  else if estado = "especialidade" then processarEspecialidade env mensagem conversa
  else if estado = "horarios" then processarHorarios env mensagem conversa dados
  else if estado = "solicitacao_anexo" then
    processarSolicitacaoAnexo env mensagem conversa dados
  else if estado = "confirmacao" then processarConfirmacao env mensagem conversa dados
  else if estado = "cancelamento" then processarCancelamento env mensagem conversa
  else if estado = "consulta_agendamentos" then processarCpf env mensagem conversa
  else processarInicio env mensagem { conversa with estado := "inicio", dados := {} }

/-- `processar_mensagem` with its top-level `try/except` (`ai_service.py`
lines 59–118): `falha = none` models a run of the dispatch body that
completes normally; `falha = some (c, e)` models a run in which an uncaught
exception is raised after the body has mutated the conversation to `c` and
the database to `e` — the handler then resets the conversation's state and
draft (lines 115–116) and returns the fixed apology (line 117). -/
def processarMensagemComExcecao (env : Env) (mensagem : Msg) (conversa : Conversa)
    (falha : Option (Conversa × Env)) : Resp × Conversa × Env :=
  match falha with
  | none => processarMensagem env mensagem conversa
  | some (c, e) =>
      (respostaErro "Desculpe, ocorreu um erro. Vamos recomeçar o atendimento.",
       { c with estado := "inicio", dados := {} }, e)

/-- A small concrete clinic used by the witness theorems: one active
doctor with one Monday-morning availability row, one already-scheduled
appointment at 10:00 (never a generated slot, the row's end time), today =
day 45003 (2023-03-20, a Monday) at 10:00. -/
def envW : Env :=
  { hoje := 45003
    nowMin := 600
    medicos := [{ id := 1, nome := "Ana", crm := "123", especialidadeId := 1 }]
    horariosDisponiveis := [{ medicoId := 1, localId := 1, diaSemana := 0, horaInicio := 480, horaFim := 600, duracaoConsulta := some 30 }]
    especialidades := [{ id := 1, nome := "Cardiologia" }]
    locais := [{ id := 1, nome := "Centro" }]
    pacientes := []
    agendamentos := [{ id := 5, pacienteId := some 2, medicoId := some 1, especialidadeId := some 1, localId := some 1, dia := some 45010, horaMin := some 600 }]
    proxId := 10
    ai := fun _ => none
    config := fun _ => none
    emailRe := fun _ => none }

/-- The joined doctor availability rows of `envW` for (specialty 1,
location 1). -/
def rowsW : List MedicoHorarioRow := medicosHorariosRows envW 1 1

/-! Concrete sanity checks of the embedding, evaluated by the kernel. -/

example : rowsW.length = 1 := by decide
example : (gerarHorariosDisponiveis envW rowsW).map (fun h => (h.dia, h.horaMin)) =
    [(45010, 480), (45010, 510), (45010, 540), (45010, 570), (45017, 480)] := by decide
example : fromDayNumber 45003 = (2023, 3, 20) := by decide
example : ehSaudacao "Moises".toList = true := by decide
example : ehCancelamento "quero cancelar".toList = true := by decide
example : buscarData "dia 10/01 as 14:00".toList = some (10, 1) := by decide
example : buscarHora "dia 10/01 as 14:00".toList = some (14, 0) := by decide
example : buscarHora "as 9h30 por favor".toList = some (9, 30) := by decide
example : buscarHora "as 9 horas".toList = some (9, 0) := by decide
example : extrairCpf "123.456.789-01".toList = some "12345678901".toList := by decide

/-! ## Properties of the Slot Generation Engine -/

/-- `duracaoConsultaDe` is always at least 5 (hence positive): the inner
slot loop advances. -/
theorem duracaoConsultaDe_ge (row : MedicoHorarioRow) : 5 ≤ duracaoConsultaDe row := by
  unfold duracaoConsultaDe
  cases row.duracaoConsulta with
  | none => simp
  | some d => simp only; split <;> omega

/-- The structural fuel of `slotLoop` is irrelevant from `fim - t` upwards:
with the positive step `dur`, `fim` iterations always suffice, so the
fuelled loop agrees with the source's unbounded `while` loop. -/
theorem slotLoop_fuel_irrelevante (env : Env) (row : MedicoHorarioRow)
    (dataAtual dur : Nat) (hdur : 0 < dur) :
    ∀ fuel₁ fuel₂ t fim acc, fim - t ≤ fuel₁ → fim - t ≤ fuel₂ →
      slotLoop env row dataAtual dur fuel₁ t fim acc =
      slotLoop env row dataAtual dur fuel₂ t fim acc := by
  intro fuel₁
  induction fuel₁ with
  | zero =>
      intro fuel₂ t fim acc h1 _
      have ht : ¬ t < fim := by omega
      cases fuel₂ with
      | zero => rfl
      | succ fuel₂ => simp only [slotLoop, if_neg ht]
  | succ fuel₁ ih =>
      intro fuel₂ t fim acc h1 h2
      cases fuel₂ with
      | zero =>
          have ht : ¬ t < fim := by omega
          simp only [slotLoop, if_neg ht]
      | succ fuel₂ =>
          simp only [slotLoop]
          by_cases ht : t < fim
          · simp only [if_pos ht]
            by_cases hlen : 5 ≤ acc.length
            · simp only [if_pos hlen]
            · simp only [if_neg hlen]
              have h1' : fim - (t + dur) ≤ fuel₁ := by omega
              have h2' : fim - (t + dur) ≤ fuel₂ := by omega
              by_cases hhoje : dataAtual = env.hoje ∧ t ≤ env.nowMin + 60
              · simp only [if_pos hhoje]; exact ih fuel₂ (t + dur) fim acc h1' h2'
              · simp only [if_neg hhoje]
                by_cases hver : verificarDisponibilidadeSlotSimples env row.medicoId dataAtual t
                · simp only [if_pos hver]; exact ih fuel₂ (t + dur) fim _ h1' h2'
                · simp only [if_neg hver]; exact ih fuel₂ (t + dur) fim acc h1' h2'
          · simp only [if_neg ht]

/-- What the generation loop guarantees about a slot it collects for the
candidate date `dataAtual`. -/
def SlotColetado (env : Env) (dataAtual : Nat) (x : HorarioInfo) : Prop :=
  x.dia = dataAtual ∧
  (dataAtual = env.hoje → env.nowMin + 60 < x.horaMin) ∧
  verificarDisponibilidadeSlotSimples env x.medicoId x.dia x.horaMin = true ∧
  x.timestamp = x.dia * 1440 + x.horaMin

/-- Every slot in the output of the inner loop was already in the
accumulator or was collected, with the collection guarantees. -/
theorem slotLoop_mem (env : Env) (row : MedicoHorarioRow) (dataAtual dur : Nat) :
    ∀ fuel t fim acc x, x ∈ slotLoop env row dataAtual dur fuel t fim acc →
      x ∈ acc ∨ SlotColetado env dataAtual x := by
  intro fuel
  induction fuel with
  | zero => intro t fim acc x hx; exact Or.inl hx
  | succ fuel ih =>
      intro t fim acc x hx
      simp only [slotLoop] at hx
      by_cases ht : t < fim
      · simp only [if_pos ht] at hx
        by_cases hlen : 5 ≤ acc.length
        · simp only [if_pos hlen] at hx; exact Or.inl hx
        · simp only [if_neg hlen] at hx
          by_cases hhoje : dataAtual = env.hoje ∧ t ≤ env.nowMin + 60
          · simp only [if_pos hhoje] at hx; exact ih _ _ _ _ hx
          · simp only [if_neg hhoje] at hx
            by_cases hver : verificarDisponibilidadeSlotSimples env row.medicoId dataAtual t
            · simp only [if_pos hver] at hx
              rcases ih _ _ _ _ hx with hacc | hP
              · rcases List.mem_append.1 hacc with hacc' | hnovo
                · exact Or.inl hacc'
                · right
                  have hx' : x = mkHorario env row dataAtual t dur := by
                    simpa using hnovo
                  subst hx'
                  refine ⟨rfl, ?_, ?_, rfl⟩
                  · intro hd
                    simp only [mkHorario]
                    omega
                  · simpa [mkHorario] using hver
              · exact Or.inr hP
            · simp only [if_neg hver] at hx; exact ih _ _ _ _ hx
      · simp only [if_neg ht] at hx; exact Or.inl hx

/-- Membership invariant for the per-date row loop. -/
theorem rowLoop_mem (env : Env) (dataAtual : Nat) :
    ∀ rows acc x, x ∈ rowLoop env dataAtual rows acc →
      x ∈ acc ∨ SlotColetado env dataAtual x := by
  intro rows
  induction rows with
  | nil => intro acc x hx; exact Or.inl hx
  | cons row resto ih =>
      intro acc x hx
      simp only [rowLoop] at hx
      by_cases hsem : row.diaSemana ≠ dataAtual % 7
      · simp only [if_pos hsem] at hx; exact ih _ _ hx
      · simp only [if_neg hsem] at hx
        by_cases hfech : medicoAgendaFechada env row.medicoId dataAtual
        · simp only [if_pos hfech] at hx; exact ih _ _ hx
        · simp only [if_neg hfech] at hx
          by_cases hlen :
              5 ≤ (slotLoop env row dataAtual (duracaoConsultaDe row)
                row.horaFim row.horaInicio row.horaFim acc).length
          · simp only [if_pos hlen] at hx
            exact slotLoop_mem env row dataAtual _ _ _ _ _ _ hx
          · simp only [if_neg hlen] at hx
            rcases ih _ _ hx with hacc | hP
            · exact slotLoop_mem env row dataAtual _ _ _ _ _ _ hacc
            · exact Or.inr hP

/-- Membership invariant for the 50-day loop: every slot in the output that
was not already accumulated was collected for one of the scanned day
offsets, which is not a weekend day. -/
theorem diaLoop_mem (env : Env) (rows : List MedicoHorarioRow) :
    ∀ dias acc x, x ∈ diaLoop env rows dias acc →
      x ∈ acc ∨ ∃ dia ∈ dias, (env.hoje + dia) % 7 < 5 ∧ SlotColetado env (env.hoje + dia) x := by
  intro dias
  induction dias with
  | nil => intro acc x hx; exact Or.inl hx
  | cons dia resto ih =>
      intro acc x hx
      simp only [diaLoop] at hx
      by_cases hfds : 5 ≤ (env.hoje + dia) % 7
      · simp only [if_pos hfds] at hx
        rcases ih _ _ hx with hacc | ⟨d, hd, hdp⟩
        · exact Or.inl hacc
        · exact Or.inr ⟨d, List.mem_cons_of_mem _ hd, hdp⟩
      · simp only [if_neg hfds] at hx
        by_cases hlen : 5 ≤ (rowLoop env (env.hoje + dia) rows acc).length
        · simp only [if_pos hlen] at hx
          rcases rowLoop_mem env _ _ _ _ hx with hacc | hP
          · exact Or.inl hacc
          · exact Or.inr ⟨dia, List.mem_cons_self _ _, by omega, hP⟩
        · simp only [if_neg hlen] at hx
          rcases ih _ _ hx with hacc | ⟨d, hd, hdp⟩
          · rcases rowLoop_mem env _ _ _ _ hacc with hacc' | hP
            · exact Or.inl hacc'
            · exact Or.inr ⟨dia, List.mem_cons_self _ _, by omega, hP⟩
          · exact Or.inr ⟨d, List.mem_cons_of_mem _ hd, hdp⟩

/-- Every slot of the final generated list was collected for a day offset
under 50, on a weekday. -/
theorem gerar_mem (env : Env) (rows : List MedicoHorarioRow) (x : HorarioInfo)
    (hx : x ∈ gerarHorariosDisponiveis env rows) :
    ∃ dia, dia < 50 ∧ (env.hoje + dia) % 7 < 5 ∧ SlotColetado env (env.hoje + dia) x := by
  unfold gerarHorariosDisponiveis at hx
  have hx1 : x ∈ List.insertionSort sortRel (diaLoop env rows (List.range 50) []) :=
    List.mem_of_mem_take hx
  have hx2 : x ∈ diaLoop env rows (List.range 50) [] :=
    (List.perm_insertionSort sortRel _).mem_iff.mp hx1
  rcases diaLoop_mem env rows _ _ _ hx2 with hnil | ⟨dia, hdia, hsem, hP⟩
  · cases hnil
  · exact ⟨dia, List.mem_range.mp hdia, hsem, hP⟩

/-- The first slot generated in `envW`/`rowsW`, written out. -/
def hW : HorarioInfo :=
  { medicoId := 1, medicoNome := "Ana", especialidade := "Cardiologia", crm := "123",
    localId := 1, localNome := "Centro", dia := 45010, horaMin := 480,
    dataFmtDM := (27, 3), diaSemana := 0, duracao := 30,
    timestamp := 45010 * 1440 + 480 }

/-- The pre-existing scheduled appointment of `envW`. -/
def aW : Agendamento :=
  { id := 5, pacienteId := some 2, medicoId := some 1, especialidadeId := some 1,
    localId := some 1, dia := some 45010, horaMin := some 600 }

/-- C1: every entry of a slot list returned by `_gerar_horarios_disponiveis`
passed `_verificar_disponibilidade_slot_simples` for its own (doctor, date,
time), so no `agendamentos` row with status `'agendado'` carries that same
doctor, date and time: generated candidate slots never coincide with an
already-scheduled appointment. -/
theorem slots_gerados_sem_conflito_com_agendado (env : Env) (rows : List MedicoHorarioRow)
    (h : HorarioInfo) (hmem : h ∈ gerarHorariosDisponiveis env rows)
    (a : Agendamento) (ha : a ∈ env.agendamentos) (hst : a.status = "agendado") :
    ¬ (a.medicoId = some h.medicoId ∧ a.dia = some h.dia ∧ a.horaMin = some h.horaMin) := by
  rintro ⟨h1, h2, h3⟩
  rcases gerar_mem env rows h hmem with ⟨dia, _, _, _, _, hver, _⟩
  unfold verificarDisponibilidadeSlotSimples at hver
  rw [Bool.not_eq_eq_eq_not, Bool.not_true, List.any_eq_false] at hver
  exact hver a ha (by simp [h1, h2, h3, hst])

theorem slots_gerados_sem_conflito_com_agendado_witness :
    hW ∈ gerarHorariosDisponiveis envW rowsW ∧ aW ∈ envW.agendamentos ∧
    aW.status = "agendado" ∧
    ¬ (aW.medicoId = some hW.medicoId ∧ aW.dia = some hW.dia ∧ aW.horaMin = some hW.horaMin) :=
  ⟨by decide, by decide, by decide,
   slots_gerados_sem_conflito_com_agendado envW rowsW hW (by decide) aW (by decide) (by decide)⟩

/-- C2: a generated slot list has at most 5 entries; no entry falls on a
Saturday or Sunday; an entry dated today is never earlier than now plus one
hour (the loop even demands strictly later); every entry's date lies within
the 50-day window starting today. -/
theorem lista_gerada_limites (env : Env) (rows : List MedicoHorarioRow) :
    (gerarHorariosDisponiveis env rows).length ≤ 5 ∧
    ∀ h ∈ gerarHorariosDisponiveis env rows,
      h.dia % 7 < 5 ∧
      (h.dia = env.hoje → ¬ h.horaMin < env.nowMin + 60) ∧
      env.hoje ≤ h.dia ∧ h.dia < env.hoje + 50 := by
  constructor
  · unfold gerarHorariosDisponiveis
    simp only [List.length_take]
    omega
  · intro h hmem
    rcases gerar_mem env rows h hmem with ⟨dia, hlt, hsem, hdia, hhoje, _, _⟩
    refine ⟨?_, ?_, ?_, ?_⟩
    · rw [hdia]; exact hsem
    · intro hh
      have : env.nowMin + 60 < h.horaMin := hhoje (by omega)
      omega
    · omega
    · omega

theorem lista_gerada_limites_witness :
    (gerarHorariosDisponiveis envW rowsW).length ≤ 5 ∧
    (hW.dia % 7 < 5 ∧
      (hW.dia = envW.hoje → ¬ hW.horaMin < envW.nowMin + 60) ∧
      envW.hoje ≤ hW.dia ∧ hW.dia < envW.hoje + 50) :=
  ⟨(lista_gerada_limites envW rowsW).1,
   (lista_gerada_limites envW rowsW).2 hW (by decide)⟩

/-- C3: in every generated list, a slot dated a Thursday never follows a
slot dated another weekday (every Thursday slot precedes every non-Thursday
slot), and any two slots of the same group (both Thursday or both not)
appear in non-decreasing order of their sortable timestamp. -/
theorem lista_gerada_ordenacao (env : Env) (rows : List MedicoHorarioRow) :
    List.Pairwise (fun a b =>
      (b.dia % 7 = 3 → a.dia % 7 = 3) ∧
      ((a.dia % 7 = 3 ↔ b.dia % 7 = 3) → a.timestamp ≤ b.timestamp))
      (gerarHorariosDisponiveis env rows) := by
  have hdef : gerarHorariosDisponiveis env rows =
      List.take 5 (List.insertionSort sortRel (diaLoop env rows (List.range 50) [])) := rfl
  rw [hdef]
  have hs : List.Pairwise sortRel
      (List.insertionSort sortRel (diaLoop env rows (List.range 50) [])) :=
    List.sorted_insertionSort sortRel _
  have ht := List.Pairwise.sublist (List.take_sublist 5 _) hs
  refine ht.imp ?_
  intro a b hab
  unfold sortRel sortKey at hab
  constructor
  · intro hb
    by_cases hathu : a.dia % 7 = 3
    · exact hathu
    · exfalso
      simp only [if_pos hb, if_neg hathu] at hab
      omega
  · intro hiff
    by_cases hathu : a.dia % 7 = 3
    · have hbthu := hiff.mp hathu
      simp only [if_pos hathu, if_pos hbthu] at hab
      omega
    · have hbthu : ¬ b.dia % 7 = 3 := fun hb => hathu (hiff.mpr hb)
      simp only [if_neg hathu, if_neg hbthu] at hab
      omega

/-! ## Failure policy, overrides, interpreter edge case -/

/-- C5: the top-level `try/except` of `processar_mensagem` never propagates
a fault.  Whatever partially mutated conversation `falha.1` the body
reached before raising, the caller receives the fixed apology with
`success = false` and a conversation whose state is `inicio` and whose
draft is empty — the reset is a constant, independent of the partial
state. -/
theorem falha_reseta_conversa (env : Env) (mensagem : Msg) (conversa : Conversa)
    (falha : Conversa × Env) :
    (processarMensagemComExcecao env mensagem conversa (some falha)).1 =
      respostaErro "Desculpe, ocorreu um erro. Vamos recomeçar o atendimento." ∧
    (processarMensagemComExcecao env mensagem conversa (some falha)).1.success = false ∧
    ((processarMensagemComExcecao env mensagem conversa (some falha)).2.1).estado = "inicio" ∧
    ((processarMensagemComExcecao env mensagem conversa (some falha)).2.1).dados = {} := by
  obtain ⟨c, e⟩ := falha
  exact ⟨rfl, rfl, rfl, rfl⟩

/-- C9: when the stripped message is not a pure number and neither a date
fragment (`D/M`, `D-M`, `D.M`) nor a time fragment (`H:MM`, `HhMM`, `Hh`,
`H horas`) can be extracted, the Choice Interpreter returns the first
candidate of a non-empty list unconditionally. -/
theorem escolha_sem_fragmentos_retorna_primeiro (mensagem : Msg)
    (horarios : List HorarioInfo) (h0 : HorarioInfo) (resto : List HorarioInfo)
    (hne : horarios = h0 :: resto)
    (hnum : ehNumero (trimL mensagem) = false)
    (hdata : buscarData mensagem = none)
    (hhora : buscarHora mensagem = none) :
    interpretarEscolhaHorario mensagem horarios = some h0 := by
  unfold interpretarEscolhaHorario
  simp [hnum, hdata, hhora, hne]

theorem escolha_sem_fragmentos_retorna_primeiro_witness :
    ("quero esse mesmo".toList ≠ [] → True) ∧
    ehNumero (trimL "quero esse mesmo".toList) = false ∧
    buscarData "quero esse mesmo".toList = none ∧
    buscarHora "quero esse mesmo".toList = none ∧
    interpretarEscolhaHorario "quero esse mesmo".toList [hW] = some hW :=
  ⟨fun _ => trivial, by decide, by decide, by decide,
   escolha_sem_fragmentos_retorna_primeiro "quero esse mesmo".toList [hW] hW []
     rfl (by decide) (by decide) (by decide)⟩

/-- `_processar_inicio` never touches the draft data. -/
theorem processarInicio_preserva_dados (env : Env) (mensagem : Msg) (conversa : Conversa) :
    ((processarInicio env mensagem conversa).2.1).dados = conversa.dados := by
  simp only [processarInicio]
  split_ifs <;> rfl

/-- C10: the greeting override matches by substring in any state: a message
containing a greeting substring (and no cancellation keyword, which is
checked first) makes `processar_mensagem` reset the conversation to state
`inicio` with an empty draft before handling it with the start handler —
so a mid-flow message merely containing `oi` inside a longer word aborts
the flow and clears all collected draft data. -/
theorem saudacao_reseta_conversa (env : Env) (mensagem : Msg) (conversa : Conversa)
    (hs : ehSaudacao mensagem = true) (hc : ehCancelamento mensagem = false) :
    processarMensagem env mensagem conversa =
      processarInicio env mensagem { conversa with estado := "inicio", dados := {} } ∧
    ((processarMensagem env mensagem conversa).2.1).dados = {} := by
  have heq : processarMensagem env mensagem conversa =
      processarInicio env mensagem { conversa with estado := "inicio", dados := {} } := by
    unfold processarMensagem
    simp [hs, hc]
  exact ⟨heq, by rw [heq, processarInicio_preserva_dados]⟩

theorem saudacao_reseta_conversa_witness :
    ehSaudacao "Moises".toList = true ∧ ehCancelamento "Moises".toList = false ∧
    processarMensagem envW "Moises".toList
        { estado := "cadastro", dados := { cpf := some "12345678901".toList, etapaCadastro := some "nome" } } =
      processarInicio envW "Moises".toList
        { estado := "inicio", dados := {}, pacienteId := none } ∧
    ((processarMensagem envW "Moises".toList
        { estado := "cadastro", dados := { cpf := some "12345678901".toList, etapaCadastro := some "nome" } }).2.1).dados = {} :=
  ⟨by decide, by decide,
   (saudacao_reseta_conversa envW "Moises".toList _ (by decide) (by decide)).1,
   (saudacao_reseta_conversa envW "Moises".toList _ (by decide) (by decide)).2⟩

/-- `_processar_cancelamento_cpf_valido` never changes the conversation
state. -/
theorem cancelamentoCpfValido_mantem_estado (env : Env) (conversa : Conversa)
    (paciente : Paciente) :
    ((processarCancelamentoCpfValido env conversa paciente).2.1).estado = conversa.estado := by
  simp only [processarCancelamentoCpfValido]
  split <;> rfl

/-- `_processar_cpf`, entered in state `cancelamento`, leaves the
conversation in state `cancelamento` on every path. -/
theorem processarCpf_mantem_cancelamento (env : Env) (mensagem : Msg) (conversa : Conversa)
    (hest : conversa.estado = "cancelamento") :
    ((processarCpf env mensagem conversa).2.1).estado = "cancelamento" := by
  unfold processarCpf
  cases hcpf : extrairCpf mensagem with
  | none => exact hest
  | some cpf =>
    cases hpac : env.pacientes.find? (fun p => p.cpf == cpf) with
    | some paciente =>
        simp only [hpac]
        split
        · rw [cancelamentoCpfValido_mantem_estado]
          exact hest
        · next hcond =>
            exfalso
            apply hcond
            simp [hest]
    | none =>
        simp only [hpac]
        rw [if_pos (Or.inl hest)]
        exact hest

/-- With a `cancelamento` state and a cleared draft (the situation the
global override creates), the cancellation handler keeps the conversation
in state `cancelamento` whatever the message. -/
theorem processarCancelamento_mantem_estado (env : Env) (mensagem : Msg)
    (conversa : Conversa) (hest : conversa.estado = "cancelamento")
    (hdados : conversa.dados = {}) :
    ((processarCancelamento env mensagem conversa).2.1).estado = "cancelamento" := by
  unfold processarCancelamento
  rw [hdados]
  exact processarCpf_mantem_cancelamento env mensagem conversa hest

/-- C8: from any state other than `cancelamento`, a message matching a
cancellation keyword transitions the conversation to state `cancelamento`
with an empty draft, and processing continues as the cancellation handler
on that reset conversation; the conversation still holds state
`cancelamento` when the turn ends. -/
theorem cancelamento_override_global (env : Env) (mensagem : Msg) (conversa : Conversa)
    (h1 : conversa.estado ≠ "cancelamento") (h2 : ehCancelamento mensagem = true) :
    processarMensagem env mensagem conversa =
      processarCancelamento env mensagem
        { conversa with estado := "cancelamento", dados := {} } ∧
    ((processarMensagem env mensagem conversa).2.1).estado = "cancelamento" := by
  have hest : (if conversa.estado = "" then "inicio" else conversa.estado) ≠ "cancelamento" := by
    split
    · decide
    · exact h1
  have heq : processarMensagem env mensagem conversa =
      processarCancelamento env mensagem
        { conversa with estado := "cancelamento", dados := {} } := by
    simp only [processarMensagem]
    rw [if_pos ⟨hest, h2⟩]
  refine ⟨heq, ?_⟩
  rw [heq]
  exact processarCancelamento_mantem_estado env mensagem _ rfl rfl

theorem cancelamento_override_global_witness :
    ("local" : String) ≠ "cancelamento" ∧ ehCancelamento "quero cancelar".toList = true ∧
    processarMensagem envW "quero cancelar".toList { estado := "local" } =
      processarCancelamento envW "quero cancelar".toList
        { estado := "cancelamento", dados := {}, pacienteId := none } ∧
    ((processarMensagem envW "quero cancelar".toList { estado := "local" }).2.1).estado =
      "cancelamento" :=
  ⟨by decide, by decide,
   (cancelamento_override_global envW "quero cancelar".toList _ (by decide) (by decide)).1,
   (cancelamento_override_global envW "quero cancelar".toList _ (by decide) (by decide)).2⟩

/-! ## The confirm state (`_processar_confirmacao`) -/

/-- C4: in the confirm state, with a fully drafted slot selection:
an affirmative message appends exactly one new appointment whose doctor,
date, time and specialty equal the drafted selection (default status
`agendado`), clears the draft and finishes the conversation
(`finalizado`); a message that is negative (and not affirmative — the
affirmative keywords are tested first) creates nothing and returns the
state to slot choice (`horarios`); a message that is neither re-prompts
for confirmation (`success = false`, next state `confirmacao`) and leaves
conversation and store unchanged. -/
theorem confirmacao_fluxo (env : Env) (mensagem : Msg) (conversa : Conversa) (dados : Draft)
    (medicoId especialidadeId localId dia hora : Nat)
    (h1 : dados.medicoId = some medicoId)
    (h2 : dados.especialidadeId = some especialidadeId)
    (h3 : dados.localId = some localId)
    (h4 : dados.dataAgendamento = some dia)
    (h5 : dados.horaAgendamento = some hora)
    (h6 : dados.medicoNome.isSome = true)
    (h7 : dados.especialidadeNome.isSome = true)
    (h8 : dados.dataFormatada.isSome = true)
    (h9 : dados.horaFormatada.isSome = true) :
    (ehAfirmativa mensagem = true →
      ∃ novo : Agendamento,
        ((processarConfirmacao env mensagem conversa dados).2.2).agendamentos =
          env.agendamentos ++ [novo] ∧
        novo.medicoId = some medicoId ∧ novo.dia = some dia ∧ novo.horaMin = some hora ∧
        novo.especialidadeId = some especialidadeId ∧ novo.status = "agendado" ∧
        ((processarConfirmacao env mensagem conversa dados).2.1).estado = "finalizado" ∧
        ((processarConfirmacao env mensagem conversa dados).2.1).dados = {}) ∧
    (ehAfirmativa mensagem = false → ehNegativa mensagem = true →
      (processarConfirmacao env mensagem conversa dados).2.1 =
        { conversa with estado := "horarios" } ∧
      (processarConfirmacao env mensagem conversa dados).2.2 = env) ∧
    (ehAfirmativa mensagem = false → ehNegativa mensagem = false →
      (processarConfirmacao env mensagem conversa dados).2.1 = conversa ∧
      (processarConfirmacao env mensagem conversa dados).2.2 = env ∧
      (processarConfirmacao env mensagem conversa dados).1.success = false ∧
      (processarConfirmacao env mensagem conversa dados).1.proximoEstado = "confirmacao") := by
  refine ⟨?_, ?_, ?_⟩
  · intro haff
    simp only [processarConfirmacao, haff, h1, h2, h3, h4, h5]
    have hkeys : dados.medicoNome.isSome = true ∧ dados.especialidadeNome.isSome = true ∧
        dados.dataFormatada.isSome = true ∧ dados.horaFormatada.isSome = true :=
      ⟨h6, h7, h8, h9⟩
    rw [if_pos hkeys]
    exact ⟨_, rfl, rfl, rfl, rfl, rfl, rfl, rfl, rfl⟩
  · intro hnaff hneg
    simp only [processarConfirmacao, hnaff, hneg]
    exact ⟨rfl, rfl⟩
  · intro hnaff hnneg
    simp only [processarConfirmacao, hnaff, hnneg]
    exact ⟨rfl, rfl, rfl, rfl⟩

/-- The drafted selection used by the confirm-state witness. -/
def draftC4 : Draft :=
  { localId := some 1, localNome := some "Centro", especialidadeId := some 1,
    especialidadeNome := some "Cardiologia", medicoId := some 1, medicoNome := some "Ana",
    dataAgendamento := some 45010, horaAgendamento := some 480,
    dataFormatada := some (27, 3), horaFormatada := some 480 }

theorem confirmacao_fluxo_witness :
    draftC4.medicoId = some 1 ∧ ehAfirmativa "sim".toList = true ∧
    (∃ novo : Agendamento,
      ((processarConfirmacao envW "sim".toList { estado := "confirmacao", dados := draftC4, pacienteId := some 2 } draftC4).2.2).agendamentos =
        envW.agendamentos ++ [novo] ∧
      novo.medicoId = some 1 ∧ novo.dia = some 45010 ∧ novo.horaMin = some 480 ∧
      novo.especialidadeId = some 1 ∧ novo.status = "agendado" ∧
      ((processarConfirmacao envW "sim".toList { estado := "confirmacao", dados := draftC4, pacienteId := some 2 } draftC4).2.1).estado = "finalizado" ∧
      ((processarConfirmacao envW "sim".toList { estado := "confirmacao", dados := draftC4, pacienteId := some 2 } draftC4).2.1).dados = {}) :=
  ⟨by decide, by decide,
   (confirmacao_fluxo envW "sim".toList
      { estado := "confirmacao", dados := draftC4, pacienteId := some 2 } draftC4
      1 1 1 45010 480 (by decide) (by decide) (by decide) (by decide) (by decide)
      (by decide) (by decide) (by decide) (by decide)).1 (by decide)⟩

/-! ## Unknown patient in the cancellation / lookup flow -/

/-- C7 counterexample: a valid 11-digit id matching no patient, received in
state `cancelamento`, is rejected — but the Conversation record is **not**
reset: its state is still `cancelamento` afterwards (only the response's
advertised next state says `inicio`, and the caller never copies that field
back), so the next message is handled by the cancellation flow again, not
by the start handler. -/
theorem cpf_desconhecido_nao_reseta_contraexemplo :
    ((processarCpf envW "99999999999".toList { estado := "cancelamento" }).2.1).estado =
      "cancelamento" ∧
    ((processarCpf envW "99999999999".toList { estado := "cancelamento" }).1).success = false ∧
    ((processarCpf envW "99999999999".toList { estado := "cancelamento" }).1).proximoEstado =
      "inicio" := by
  exact ⟨by decide, by decide, by decide⟩

/-- C7 (amended): in the cancellation or lookup flow, a valid 11-digit id
matching no patient is rejected with a failure response whose advertised
next state is `inicio`, while the stored Conversation (and the store) are
left completely unchanged — the state remains the cancellation/lookup
state, so the next message is handled by that flow again, not by the start
handler. -/
theorem cpf_desconhecido_rejeita_sem_reset (env : Env) (mensagem : Msg) (conversa : Conversa)
    (cpf : Msg) (hcpf : extrairCpf mensagem = some cpf)
    (hnf : env.pacientes.find? (fun p => p.cpf == cpf) = none)
    (hest : conversa.estado = "cancelamento" ∨ conversa.estado = "consulta_agendamentos") :
    processarCpf env mensagem conversa =
      ({ success := false, tipo := "texto", proximoEstado := "inicio" }, conversa, env) := by
  unfold processarCpf
  simp only [hcpf, hnf]
  rw [if_pos hest]

theorem cpf_desconhecido_rejeita_sem_reset_witness :
    extrairCpf "99999999999".toList = some "99999999999".toList ∧
    envW.pacientes.find? (fun p => p.cpf == "99999999999".toList) = none ∧
    processarCpf envW "99999999999".toList { estado := "consulta_agendamentos" } =
      ({ success := false, tipo := "texto", proximoEstado := "inicio" },
       { estado := "consulta_agendamentos" }, envW) :=
  ⟨by decide, by decide,
   cpf_desconhecido_rejeita_sem_reset envW "99999999999".toList
     { estado := "consulta_agendamentos" } "99999999999".toList
     (by decide) (by decide) (Or.inr (by decide))⟩

/-! ## Attachment placeholder and confirmation (no promotion) -/

/-- The Choice Interpreter never matches against an empty candidate
list. -/
theorem interpretarEscolhaHorario_nil (mensagem : Msg) :
    interpretarEscolhaHorario mensagem [] = none := by
  simp only [interpretarEscolhaHorario]
  split_ifs <;> simp

/-- The placeholder appointment of the C6 counterexample, created at slot
choice with status `pendente_anexo`. -/
def placeholderC6 : Agendamento :=
  { id := 7, pacienteId := some 2, medicoId := some 1, especialidadeId := some 1,
    localId := some 1, dia := some 45010, horaMin := some 480, status := "pendente_anexo" }

/-- Environment for the C6 counterexample: the placeholder row is already
in the store. -/
def envC6 : Env := { envW with agendamentos := [placeholderC6], proxId := 8 }

/-- Draft for the C6 counterexample: the selection of `draftC4` plus the
pointer at the placeholder and a received attachment. -/
def draftC6 : Draft :=
  { draftC4 with
    agendamentoTempId := some 7
    anexoRecebido := true
    anexoNome := some "pedido_medico_2" }

/-- C6 counterexample: confirming (`sim`) with a `pendente_anexo`
placeholder in the store and `agendamento_temp_id` in the draft creates a
**separate new** appointment row (the table grows by one) and leaves the
placeholder row behind, still with status `pendente_anexo` — the
placeholder is not promoted. -/
theorem confirmacao_nao_promove_placeholder_contraexemplo :
    ((processarConfirmacao envC6 "sim".toList
        { estado := "confirmacao", dados := draftC6, pacienteId := some 2 }
        draftC6).2.2).agendamentos.length = envC6.agendamentos.length + 1 ∧
    ((processarConfirmacao envC6 "sim".toList
        { estado := "confirmacao", dados := draftC6, pacienteId := some 2 }
        draftC6).2.2).agendamentos.head? = some placeholderC6 ∧
    placeholderC6.status = "pendente_anexo" := by
  exact ⟨by decide, by decide, by decide⟩

/-- C6 (amended): when the chosen specialty requires an attachment, a
placeholder appointment with status `pendente_anexo` is created at slot
choice and the flow moves to the attachment request; but on explicit
confirmation the placeholder is **not** promoted: a separate new
appointment row (fresh id, default status `agendado`) is appended, the
previous table — including the placeholder, still `pendente_anexo` — being
kept unchanged as a prefix. -/
theorem anexo_placeholder_sem_promocao (env : Env) (mensagem : Msg) (conversa : Conversa)
    (dados : Draft) (lid eid : Nat) (espec : Especialidade) (escolha : HorarioInfo)
    (hl : dados.localId = some lid) (hl0 : lid ≠ 0)
    (he : dados.especialidadeId = some eid) (he0 : eid ≠ 0)
    (hrows : medicosHorariosRows env eid lid ≠ [])
    (hesc : interpretarEscolhaHorario mensagem
      (gerarHorariosDisponiveis env (medicosHorariosRows env eid lid)) = some escolha)
    (hmsg : trimL mensagem ≠ [])
    (hespec : env.especialidades.find? (fun e => e.id == eid) = some espec)
    (hreq : espec.requerAnexo = true) :
    (∃ temp : Agendamento,
      ((processarHorarios env mensagem conversa dados).2.2).agendamentos =
        env.agendamentos ++ [temp] ∧
      temp.status = "pendente_anexo" ∧ temp.id = env.proxId ∧
      temp.medicoId = some escolha.medicoId ∧ temp.dia = some escolha.dia ∧
      temp.horaMin = some escolha.horaMin ∧
      ((processarHorarios env mensagem conversa dados).2.1).estado = "solicitacao_anexo" ∧
      ((processarHorarios env mensagem conversa dados).2.1).dados.agendamentoTempId =
        some temp.id) ∧
    (∀ (env2 : Env) (mensagem2 : Msg) (conversa2 : Conversa) (dados2 : Draft),
      ehAfirmativa mensagem2 = true →
      dados2.medicoId.isSome = true → dados2.especialidadeId.isSome = true →
      dados2.localId.isSome = true → dados2.dataAgendamento.isSome = true →
      dados2.horaAgendamento.isSome = true →
      ∃ novo : Agendamento,
        ((processarConfirmacao env2 mensagem2 conversa2 dados2).2.2).agendamentos =
          env2.agendamentos ++ [novo] ∧
        novo.status = "agendado" ∧ novo.id = env2.proxId) := by
  constructor
  · have hger : gerarHorariosDisponiveis env (medicosHorariosRows env eid lid) ≠ [] := by
      intro h0
      rw [h0, interpretarEscolhaHorario_nil] at hesc
      exact Option.noConfusion hesc
    have hids : ¬ (lid = 0 ∨ eid = 0) := by
      simp [hl0, he0]
    simp only [processarHorarios, hl, he, Option.getD_some]
    rw [if_neg hids, if_neg hrows, if_neg hger, if_neg hmsg]
    simp only [hesc, hespec, hreq]
    rw [if_pos trivial]
    exact ⟨_, rfl, rfl, rfl, rfl, rfl, rfl, rfl, rfl⟩
  · intro env2 mensagem2 conversa2 dados2 haff hm he2 hlo hd hh
    obtain ⟨medicoId2, hm⟩ := Option.isSome_iff_exists.mp hm
    obtain ⟨especialidadeId2, he2⟩ := Option.isSome_iff_exists.mp he2
    obtain ⟨localId2, hlo⟩ := Option.isSome_iff_exists.mp hlo
    obtain ⟨dia2, hd⟩ := Option.isSome_iff_exists.mp hd
    obtain ⟨hora2, hh⟩ := Option.isSome_iff_exists.mp hh
    simp only [processarConfirmacao, haff, hm, he2, hlo, hd, hh]
    by_cases hkeys : dados2.medicoNome.isSome = true ∧ dados2.especialidadeNome.isSome = true ∧
        dados2.dataFormatada.isSome = true ∧ dados2.horaFormatada.isSome = true
    · rw [if_pos hkeys]
      exact ⟨_, rfl, rfl, rfl⟩
    · rw [if_neg hkeys]
      exact ⟨_, rfl, rfl, rfl⟩

/-- `envW` with the (only) specialty marked as requiring an attachment;
the generated slots are unchanged. -/
def envAnexoW : Env :=
  { envW with especialidades := [{ id := 1, nome := "Cardiologia", requerAnexo := true }] }

theorem anexo_placeholder_sem_promocao_witness :
    envAnexoW.especialidades.find? (fun e => e.id == 1) =
      some { id := 1, nome := "Cardiologia", requerAnexo := true } ∧
    interpretarEscolhaHorario "1".toList
      (gerarHorariosDisponiveis envAnexoW (medicosHorariosRows envAnexoW 1 1)) = some hW ∧
    (∃ temp : Agendamento,
      ((processarHorarios envAnexoW "1".toList
          { estado := "horarios", pacienteId := some 2,
            dados := { localId := some 1, especialidadeId := some 1 } }
          { localId := some 1, especialidadeId := some 1 }).2.2).agendamentos =
        envAnexoW.agendamentos ++ [temp] ∧
      temp.status = "pendente_anexo" ∧ temp.id = envAnexoW.proxId ∧
      temp.medicoId = some hW.medicoId ∧ temp.dia = some hW.dia ∧
      temp.horaMin = some hW.horaMin ∧
      ((processarHorarios envAnexoW "1".toList
          { estado := "horarios", pacienteId := some 2,
            dados := { localId := some 1, especialidadeId := some 1 } }
          { localId := some 1, especialidadeId := some 1 }).2.1).estado =
        "solicitacao_anexo" ∧
      ((processarHorarios envAnexoW "1".toList
          { estado := "horarios", pacienteId := some 2,
            dados := { localId := some 1, especialidadeId := some 1 } }
          { localId := some 1, especialidadeId := some 1 }).2.1).dados.agendamentoTempId =
        some temp.id) ∧
    (∀ (env2 : Env) (mensagem2 : Msg) (conversa2 : Conversa) (dados2 : Draft),
      ehAfirmativa mensagem2 = true →
      dados2.medicoId.isSome = true → dados2.especialidadeId.isSome = true →
      dados2.localId.isSome = true → dados2.dataAgendamento.isSome = true →
      dados2.horaAgendamento.isSome = true →
      ∃ novo : Agendamento,
        ((processarConfirmacao env2 mensagem2 conversa2 dados2).2.2).agendamentos =
          env2.agendamentos ++ [novo] ∧
        novo.status = "agendado" ∧ novo.id = env2.proxId) :=
  ⟨by decide, by decide,
   (anexo_placeholder_sem_promocao envAnexoW "1".toList
      { estado := "horarios", pacienteId := some 2,
        dados := { localId := some 1, especialidadeId := some 1 } }
      { localId := some 1, especialidadeId := some 1 } 1 1
      { id := 1, nome := "Cardiologia", requerAnexo := true } hW
      (by decide) (by decide) (by decide) (by decide) (by decide) (by decide)
      (by decide) (by decide) (by decide)).1,
   (anexo_placeholder_sem_promocao envAnexoW "1".toList
      { estado := "horarios", pacienteId := some 2,
        dados := { localId := some 1, especialidadeId := some 1 } }
      { localId := some 1, especialidadeId := some 1 } 1 1
      { id := 1, nome := "Cardiologia", requerAnexo := true } hW
      (by decide) (by decide) (by decide) (by decide) (by decide) (by decide)
      (by decide) (by decide) (by decide)).2⟩
